import Mathlib

/-!
Verification of the TMdecoder Strateole2 telemetry decoder.

The definitions below are a shallow embedding of src/TMdecoder.py.
Byte strings are modelled as `List Nat` (each element one byte value),
Python slicing and `bytes.find` are modelled with their exact Python
semantics (negative index normalisation, clamping, `find` returning -1
when the pattern is absent).  Raw struct fields decode into exact
numbers: `Nat` / `Int` for integer fields and `Rat` for the scaled
fields (the Python code uses float division by 100 and 50; the claimed
engineering values are exact decimals, so rationals model them
faithfully).  The vapor-pressure model (Hardy 1998) involves `exp` and
`log` and is embedded over the reals.
-/

set_option maxRecDepth 4000

/-- Python `data[a:b]` on a byte string: negative indices are offset by the
length, then both bounds are clamped into `[0, len]`. -/
def pySlice (d : List Nat) (a b : Int) : List Nat :=
  let n : Int := d.length
  let a2 : Int := if a < 0 then max (a + n) 0 else min a n
  let b2 : Int := if b < 0 then max (b + n) 0 else min b n
  (d.drop a2.toNat).take (b2.toNat - a2.toNat)

/-- Python `data.find(pat)`: the lowest index at which `pat` occurs as a
contiguous sub-sequence of `d`, and `-1` when it does not occur. -/
def pyFind (d pat : List Nat) : Int :=
  match (List.range (d.length + 1)).find? (fun i => pat.isPrefixOf (d.drop i)) with
  | some i => (i : Int)
  | none => -1

/-- Python `range(a, b, step)` for nonnegative bounds and positive step. -/
def pyRange (a b step : Nat) : List Nat :=
  (List.range ((b - a + step - 1) / step)).map (fun k => a + k * step)

/-- Big-endian unsigned 16-bit value at byte offset `off`
(Python `struct.unpack_from` with format `>H`). -/
def unpackU16BE (d : List Nat) (off : Nat) : Nat :=
  256 * d.getD off 0 + d.getD (off + 1) 0

/-- Big-endian unsigned 32-bit value at byte offset `off`
(Python `struct.unpack_from` with format `>L`). -/
def unpackU32BE (d : List Nat) (off : Nat) : Nat :=
  16777216 * d.getD off 0 + 65536 * d.getD (off + 1) 0
    + 256 * d.getD (off + 2) 0 + d.getD (off + 3) 0

/-- Big-endian signed 32-bit value at byte offset `off`
(Python `struct.unpack_from` with format `>l`). -/
def unpackI32BE (d : List Nat) (off : Nat) : Int :=
  if unpackU32BE d off < 2147483648 then (unpackU32BE d off : Int)
  else (unpackU32BE d off : Int) - 4294967296

/-- The bytes of the tag `<TM>`. -/
def tmOpenTag : List Nat := [60, 84, 77, 62]

/-- The bytes of the tag `</TM>`. -/
def tmCloseTag : List Nat := [60, 47, 84, 77, 62]

/-- The bytes of the tag `</CRC>`. -/
def crcCloseTag : List Nat := [60, 47, 67, 82, 67, 62]

/-- The bytes of the 12-byte pattern the framer searches for,
namely the Python literal `</CRC>\nSTART`. -/
def crcStartMarker : List Nat := [60, 47, 67, 82, 67, 62, 10, 83, 84, 65, 82, 84]

/-- Model of `TMmsg.delimitedText`: the slice
`data[data.find(startTxt) : data.find(endTxt) + len(endTxt)]`.
Note that `find` returns `-1` when a marker is absent and the slice is
taken regardless; no exception is ever raised. -/
def delimitedText (data startTxt endTxt : List Nat) : List Nat :=
  let start := pyFind data startTxt
  let e := pyFind data endTxt
  pySlice data start (e + endTxt.length)

/-- Model of `TMmsg.binaryData`: the declared payload length `bin_length` is the
`Length` field parsed out of the TM XML block (the XML parsing itself is
an external library and is taken as a parameter here); the payload is
`data[bin_start : bin_start + bin_length]` where
`bin_start = data.find(b'</CRC>\nSTART') + 12`. -/
def binaryData (data : List Nat) (bin_length : Nat) : List Nat :=
  let bin_start := pyFind data crcStartMarker + 12
  pySlice data bin_start (bin_start + bin_length)

/-- Model of `TMmsg.timeStamp`: the big-endian unsigned 32-bit integer in the first
four bytes of the binary payload. -/
def timeStamp (bindata : List Nat) : Nat :=
  unpackU32BE bindata 0

/-- The scalar fields of one decoded RS41 sample
(`RS41msg.decodeRS41sample`, lines 237-244 of the source). -/
structure RS41Scalars where
  valid : Nat
  secs_from_start : Int
  air_temp_degC : Rat
  humdity_percent : Rat
  humidity_sensor_temp_degC : Rat
  pres_mb : Rat
  module_error : Nat
deriving DecidableEq, Repr

/-- Model of `RS41msg.decodeRS41sample`: unpack the scalar fields from a 15-byte
record; `struct.unpack_from` raises `struct.error` when the record is
shorter than the 15 bytes its last field needs, modelled as `none`. -/
def decodeRS41sample (record : List Nat) : Option RS41Scalars :=
  if 15 ≤ record.length then
    some
      { valid := record.getD 0 0
        secs_from_start := unpackI32BE record 1
        air_temp_degC := (unpackU16BE record 5 : Rat) / 100 - 100
        humdity_percent := (unpackU16BE record 7 : Rat) / 100
        humidity_sensor_temp_degC := (unpackU16BE record 9 : Rat) / 100 - 100
        pres_mb := (unpackU16BE record 11 : Rat) / 50
        module_error := unpackU16BE record 13 }
  else none

/-- The record slices taken by `RS41msg.allRS41samples`:
`self.bindata[i:i+15]` for `i in range(6, len(self.bindata)-6, 15)`
(`record_len = 1+4+2+2+2+2+2 = 15`). -/
def rs41RecordSlices (bindata : List Nat) : List (List Nat) :=
  (pyRange 6 (bindata.length - 6) 15).map (fun i => (bindata.drop i).take 15)

/-- Decode every slice; any `struct.error` aborts the whole decode. -/
def decodeRS41all : List (List Nat) → Option (List RS41Scalars)
  | [] => some []
  | s :: rest =>
    match decodeRS41sample s, decodeRS41all rest with
    | some r, some rs => some (r :: rs)
    | _, _ => none

/-- Second half of `RS41msg.allRS41samples`: attach to each record the
absolute Unix time
`secs_from_start + (unix_end_time - (records[-1].secs - records[0].secs + 1))`.
When the record list is empty the Python code raises `IndexError` at
`records[-1]`, modelled as `none`. -/
def attachTimes (unix_end_time : Int) : List RS41Scalars → Option (List (RS41Scalars × Int))
  | [] => none
  | r0 :: rest =>
    let rl := rest.getLastD r0
    let start_time := unix_end_time - (rl.secs_from_start - r0.secs_from_start + 1)
    some ((r0 :: rest).map (fun r => (r, r.secs_from_start + start_time)))

/-- Model of `RS41msg.allRS41samples`: slice the payload, decode every slice, then
compute each absolute time from the reference timestamp `unix_end_time`. -/
def allRS41samples (bindata : List Nat) (unix_end_time : Int) :
    Option (List (RS41Scalars × Int)) :=
  (decodeRS41all (rs41RecordSlices bindata)).bind (attachTimes unix_end_time)

/-- One decoded LPC frame: the three 16-element channels of big-endian
16-bit words read by `LPCmsg.unpackBinary` at sub-offsets `0`, `+32` and
`+64` of the frame. -/
structure LPCFrame where
  HGBins : List Nat
  LGBins : List Nat
  HKRaw : List Nat
deriving DecidableEq, Repr

/-- The frame read at byte offset `indx` of the LPC payload
(the inner `for x in range(16)` loop of `LPCmsg.unpackBinary`). -/
def lpcFrameAt (d : List Nat) (indx : Nat) : LPCFrame :=
  { HGBins := (List.range 16).map (fun x => unpackU16BE d (indx + x * 2))
    LGBins := (List.range 16).map (fun x => unpackU16BE d (indx + x * 2 + 32))
    HKRaw := (List.range 16).map (fun x => unpackU16BE d (indx + x * 2 + 64)) }

/-- The frames read by `LPCmsg.unpackBinary`:
`records = int(len(bindata)/96) - 2` frames, frame `y` at
`indx = 36 + (y+1)*96`. -/
def lpcFrames (d : List Nat) : List LPCFrame :=
  (List.range (d.length / 96 - 2)).map (fun y => lpcFrameAt d (36 + (y + 1) * 96))

/-- Model of `LPCmsg.unpackBinary`: when `int(len(bindata)/96) - 2` is negative,
`np.zeros(shape=(16, records))` raises `ValueError` (negative dimension),
modelled as `none`; otherwise the frames are read. -/
def unpackBinary (d : List Nat) : Option (List LPCFrame) :=
  if d.length / 96 < 2 then none else some (lpcFrames d)

/-- Model of `Hardy_1998`: saturation vapor pressure (hPa) at `TC` degrees Celsius.
The seven coefficients `HC` and the log coefficient are copied verbatim
from the source; the Python float arithmetic is embedded over the reals. -/
noncomputable def Hardy_1998 (TC : ℝ) : ℝ :=
  let TK : ℝ := TC + 273.15
  let lesw : ℝ :=
    (-2.8365744e3) * TK ^ (-2 : ℤ) + (-6.028076559e3) * TK ^ (-1 : ℤ)
      + 1.954263612e1 + (-2.737830188e-2) * TK + 1.6261698e-5 * TK ^ (2 : ℤ)
      + 7.0229056e-10 * TK ^ (3 : ℤ) + (-1.8680009e-13) * TK ^ (4 : ℤ)
      + 2.7150305 * Real.log TK
  Real.exp lesw / 100

/-- Model of `WV_mixing_ratio`: water vapor mixing ratio in ppmv, an unguarded
division by `prshPa - ew_hPa` exactly as in the source. -/
noncomputable def WV_mixing_ratio (ew_hPa prshPa : ℝ) : ℝ :=
  ew_hPa / (prshPa - ew_hPa) * 1e6

/-- Guarded embedding of ` WV_mixing_ratio`: the error branch is taken
exactly when the denominator `prshPa - ew_hPa` is zero. -/
noncomputable def WV_mixing_ratio_checked (ew_hPa prshPa : ℝ) : Option ℝ :=
  if prshPa - ew_hPa = 0 then none else some ( WV_mixing_ratio ew_hPa prshPa)

/-- Model of `RS41_RH_wvmr`: ambient relative humidity and water vapor mixing
ratio from ambient temperature, ambient pressure, reported RH and the
humidity-sensor temperature. -/
noncomputable def RS41_RH_wvmr (TC_ambient hPa_ambient rh_reported TC_humSensor : ℝ) :
    ℝ × ℝ :=
  let eswhPa_humSensor_temp := Hardy_1998 TC_humSensor
  let eswhPa_ambient_temp := Hardy_1998 TC_ambient
  let ew_hPa := eswhPa_humSensor_temp * rh_reported / 100
  let RH_ambient := ew_hPa / eswhPa_ambient_temp * 100
  let WV_ppmv := WV_mixing_ratio ew_hPa hPa_ambient
  (RH_ambient, WV_ppmv)

/-- Line 245 of the source: the two derived fields of a decoded RS41
record are computed by passing the four decoded scalars straight to
`RS41_RH_wvmr`, with no guard in between. -/
noncomputable def decodeRS41derived (r : RS41Scalars) : ℝ × ℝ :=
  RS41_RH_wvmr (r.air_temp_degC : ℝ) (r.pres_mb : ℝ) (r.humdity_percent : ℝ)
    (r.humidity_sensor_temp_degC : ℝ)

/-- The scenario record of claim C1: raw fields valid=1, secs=1,
temp_raw=12000 (0x2EE0), hum_raw=5000 (0x1388), sensorT_raw=12000,
pres_raw=10000 (0x2710), err=0, as 15 big-endian bytes. -/
def rs41ScenarioRecord : List Nat :=
  [1, 0, 0, 0, 1, 46, 224, 19, 136, 46, 224, 39, 16, 0, 0]

/-- Claim C1: decoding a 15-byte RS41 record yields validity = byte 0,
seconds-from-start = the signed big-endian 32-bit integer at offset 1,
air temperature = u16 at offset 5 divided by 100 minus 100, humidity =
u16 at offset 7 divided by 100, humidity-sensor temperature = u16 at
offset 9 divided by 100 minus 100, pressure = u16 at offset 11 divided
by 50, and error code = u16 at offset 13 unchanged; in particular the
scenario record decodes to valid=1, secs=1, air_temp=20, humidity=50,
sensor temperature=20, pressure=200, error=0. -/
theorem decodeRS41sample_fields (r : List Nat) (h : r.length = 15) :
    decodeRS41sample r =
      some
        { valid := r.getD 0 0
          secs_from_start :=
            if 16777216 * r.getD 1 0 + 65536 * r.getD 2 0 + 256 * r.getD 3 0 + r.getD 4 0
                < 2147483648 then
              ((16777216 * r.getD 1 0 + 65536 * r.getD 2 0 + 256 * r.getD 3 0
                + r.getD 4 0 : Nat) : Int)
            else
              ((16777216 * r.getD 1 0 + 65536 * r.getD 2 0 + 256 * r.getD 3 0
                + r.getD 4 0 : Nat) : Int) - 4294967296
          air_temp_degC := ((256 * r.getD 5 0 + r.getD 6 0 : Nat) : Rat) / 100 - 100
          humdity_percent := ((256 * r.getD 7 0 + r.getD 8 0 : Nat) : Rat) / 100
          humidity_sensor_temp_degC :=
            ((256 * r.getD 9 0 + r.getD 10 0 : Nat) : Rat) / 100 - 100
          pres_mb := ((256 * r.getD 11 0 + r.getD 12 0 : Nat) : Rat) / 50
          module_error := 256 * r.getD 13 0 + r.getD 14 0 }
    ∧ decodeRS41sample rs41ScenarioRecord = some ⟨1, 1, 20, 50, 20, 200, 0⟩ := by
  constructor
  · rw [decodeRS41sample, if_pos (by omega)]
    rfl
  · norm_num [decodeRS41sample, rs41ScenarioRecord, unpackU16BE, unpackU32BE, unpackI32BE]

/-- Witness for claim C1 at the concrete scenario record. -/
theorem decodeRS41sample_fields_witness :
    rs41ScenarioRecord.length = 15 ∧
      decodeRS41sample rs41ScenarioRecord = some ⟨1, 1, 20, 50, 20, 200, 0⟩ :=
  ⟨by decide, (decodeRS41sample_fields rs41ScenarioRecord (by decide)).2⟩

/-- A 42-byte RS41 payload: 6-byte pre-header, two 15-byte records with
seconds-from-start 0 and 1 and all other raw fields zero, 6-byte trailer. -/
def d42 : List Nat :=
  [0, 0, 0, 0, 0, 0] ++
  [0, 0, 0, 0, 0, 0, 0, 0, 0, 0, 0, 0, 0, 0, 0] ++
  [0, 0, 0, 0, 1, 0, 0, 0, 0, 0, 0, 0, 0, 0, 0] ++
  [0, 0, 0, 0, 0, 0]

/-- The all-zero RS41 record (seconds-from-start 0). -/
def recA : RS41Scalars := ⟨0, 0, -100, 0, -100, 0, 0⟩

/-- The RS41 record with seconds-from-start 1 and all other raw fields zero. -/
def recB : RS41Scalars := ⟨0, 1, -100, 0, -100, 0, 0⟩

/-- Concrete evaluation: decoding `d42` with reference timestamp 100
yields the two records with absolute times 98 and 99. -/
theorem allRS41samples_d42 : allRS41samples d42 100 = some [(recA, 98), (recB, 99)] := by
  have h1 : rs41RecordSlices d42 =
      [[0,0,0,0,0,0,0,0,0,0,0,0,0,0,0], [0,0,0,0,1,0,0,0,0,0,0,0,0,0,0]] := by decide
  have h2 : decodeRS41sample [0,0,0,0,0,0,0,0,0,0,0,0,0,0,0] = some recA := by
    norm_num [decodeRS41sample, unpackU16BE, unpackU32BE, unpackI32BE, recA]
  have h3 : decodeRS41sample [0,0,0,0,1,0,0,0,0,0,0,0,0,0,0] = some recB := by
    norm_num [decodeRS41sample, unpackU16BE, unpackU32BE, unpackI32BE, recB]
  have h4 : decodeRS41all [[0,0,0,0,0,0,0,0,0,0,0,0,0,0,0], [0,0,0,0,1,0,0,0,0,0,0,0,0,0,0]]
      = some [recA, recB] := by
    simp [decodeRS41all, h2, h3]
  rw [allRS41samples, h1, h4]
  simp [attachTimes, recA, recB]

/-- Claim C2, counterexample to the second half: on the payload `d42`
(whose first record has seconds-from-start 0) with reference timestamp
100, decoding succeeds and the final record is assigned absolute time
99, not the reference timestamp 100. -/
theorem allRS41samples_endtime_cex :
    allRS41samples d42 100 = some [(recA, 98), (recB, 99)] ∧
      ([(recA, (98 : Int)), (recB, 99)]).getLast? = some (recB, 99) ∧ (99 : Int) ≠ 100 :=
  ⟨allRS41samples_d42, by simp, by decide⟩

/-- Claim C2 (amended): whenever decoding succeeds, each record pair
carries absolute time `start_time + secs_from_start` with `start_time =
unix_end_time - (last - first + 1)` as the claim states; consequently the
final record's absolute time is `unix_end_time + first - 1`, which equals
the reference timestamp only when the first record's seconds-from-start
is 1. -/
theorem allRS41samples_times (d : List Nat) (uet : Int)
    (res : List (RS41Scalars × Int)) (h : allRS41samples d uet = some res)
    (p0 pl : RS41Scalars × Int) (h0 : res.head? = some p0) (hl : res.getLast? = some pl) :
    (∀ p ∈ res,
        p.2 = (uet - (pl.1.secs_from_start - p0.1.secs_from_start + 1)) + p.1.secs_from_start)
    ∧ pl.2 = uet + p0.1.secs_from_start - 1 := by
  rw [allRS41samples] at h
  cases hd : decodeRS41all (rs41RecordSlices d) with
  | none => rw [hd] at h; simp at h
  | some records =>
    rw [hd] at h
    rw [Option.some_bind] at h
    cases records with
    | nil => simp [attachTimes] at h
    | cons r0 rest =>
      simp only [attachTimes] at h
      obtain rfl := (Option.some.inj h).symm
      have hp0 : p0 = (r0, r0.secs_from_start +
          (uet - ((rest.getLastD r0).secs_from_start - r0.secs_from_start + 1))) := by
        simp only [List.map_cons, List.head?_cons, Option.some.injEq] at h0
        exact h0.symm
      have hpl : pl = (rest.getLastD r0, (rest.getLastD r0).secs_from_start +
          (uet - ((rest.getLastD r0).secs_from_start - r0.secs_from_start + 1))) := by
        rw [List.getLast?_map, List.getLast?_cons] at hl
        simp only [Option.map_some', Option.some.injEq, ← List.getLastD_eq_getLast?] at hl
        exact hl.symm
      constructor
      · intro p hp
        obtain ⟨r, hr, rfl⟩ := List.mem_map.1 hp
        rw [hp0, hpl]
        dsimp only
        omega
      · rw [hp0, hpl]
        dsimp only
        omega

/-- Witness for claim C2 on the concrete payload `d42`. -/
theorem allRS41samples_times_witness :
    allRS41samples d42 100 = some [(recA, 98), (recB, 99)] ∧
      ((∀ p ∈ [(recA, (98 : Int)), (recB, 99)],
          p.2 = ((100 : Int) - ((recB, (99 : Int)).1.secs_from_start
            - (recA, (98 : Int)).1.secs_from_start + 1)) + p.1.secs_from_start)
        ∧ (recB, (99 : Int)).2 = (100 : Int) + (recA, (98 : Int)).1.secs_from_start - 1) :=
  ⟨allRS41samples_d42,
    allRS41samples_times d42 100 [(recA, 98), (recB, 99)] allRS41samples_d42
      (recA, 98) (recB, 99) rfl (by simp)⟩

/-- A concrete LPC payload of 288 zero bytes (three 96-byte strides). -/
def d288 : List Nat := List.replicate 288 0

/-- Claim C3: for an LPC payload of at least two 96-byte strides, the
decoded frame list has exactly `len / 96 - 2` frames, frame `y` is read
starting at byte offset `36 + (y+1)*96` (its high-gain channel is the 16
big-endian 16-bit words at that offset), and a payload of exactly
`96*(N+2)` bytes yields exactly `N` frames.  For payloads shorter than
two strides the frame count `int(len/96) - 2` would be negative and
`np.zeros` raises, so no frames are decoded there. -/
theorem unpackBinary_spec (d : List Nat) (h : 192 ≤ d.length) :
    unpackBinary d = some (lpcFrames d)
    ∧ (lpcFrames d).length = d.length / 96 - 2
    ∧ (∀ y, y < d.length / 96 - 2 →
        (lpcFrames d)[y]? = some (lpcFrameAt d (36 + (y + 1) * 96)))
    ∧ (∀ indx, (lpcFrameAt d indx).HGBins =
        (List.range 16).map (fun x =>
          256 * d.getD (indx + x * 2) 0 + d.getD (indx + x * 2 + 1) 0))
    ∧ (∀ N, d.length = 96 * (N + 2) → (lpcFrames d).length = N) := by
  refine ⟨?_, by simp [lpcFrames], ?_, fun indx => rfl, ?_⟩
  · rw [unpackBinary, if_neg]
    omega
  · intro y hy
    simp [lpcFrames, List.getElem?_map, List.getElem?_range, hy]
  · intro N hN
    simp [lpcFrames, hN]

/-- Witness for claim C3 on a concrete 288-byte payload. -/
theorem unpackBinary_spec_witness :
    192 ≤ d288.length ∧
      (unpackBinary d288 = some (lpcFrames d288)
      ∧ (lpcFrames d288).length = d288.length / 96 - 2
      ∧ (∀ y, y < d288.length / 96 - 2 →
          (lpcFrames d288)[y]? = some (lpcFrameAt d288 (36 + (y + 1) * 96)))
      ∧ (∀ indx, (lpcFrameAt d288 indx).HGBins =
          (List.range 16).map (fun x =>
            256 * d288.getD (indx + x * 2) 0 + d288.getD (indx + x * 2 + 1) 0))
      ∧ (∀ N, d288.length = 96 * (N + 2) → (lpcFrames d288).length = N)) :=
  ⟨by decide, unpackBinary_spec d288 (by decide)⟩

/-- The bytes of the tag `<CRC>`. -/
def crcOpenTag : List Nat := [60, 67, 82, 67, 62]

/-- A 57-byte container consisting solely of the well-formed TM block
`<TM><StateMess2>RS41</StateMess2><Length>42</Length></TM>` (so the XML
parse succeeds, the message is typed RS41 and the declared Length is
42), with no CRC trailer block at all. -/
def dTM : List Nat :=
  [60, 84, 77, 62, 60, 83, 116, 97, 116, 101, 77, 101, 115, 115, 50, 62, 82, 83, 52, 49,
   60, 47, 83, 116, 97, 116, 101, 77, 101, 115, 115, 50, 62, 60, 76, 101, 110, 103, 116,
   104, 62, 52, 50, 60, 47, 76, 101, 110, 103, 116, 104, 62, 60, 47, 84, 77, 62]

/-- Claim C4, counterexample: on the container `dTM`, which lacks every
CRC delimiter, decoding does not fail at all: the TM block is extracted
whole (so the program really parses Length = 42 and type RS41), `find`
of the trailer marker returns -1, the payload is silently taken from
byte 11, and the RS41 decode of that mis-framed payload succeeds,
returning records (so rows are emitted) instead of any framing error. -/
theorem framing_missing_crc_cex :
    pyFind dTM crcStartMarker = -1
    ∧ pyFind dTM crcOpenTag = -1
    ∧ pyFind dTM crcCloseTag = -1
    ∧ delimitedText dTM tmOpenTag tmCloseTag = dTM
    ∧ (allRS41samples (binaryData dTM 42)
        ((timeStamp (binaryData dTM 42) : Nat) : Int)).isSome = true := by
  refine ⟨by decide, by decide, by decide, by decide, ?_⟩
  have hpay : binaryData dTM 42 =
      [101, 115, 115, 50, 62, 82, 83, 52, 49, 60, 47, 83, 116, 97, 116, 101, 77, 101,
       115, 115, 50, 62, 60, 76, 101, 110, 103, 116, 104, 62, 52, 50, 60, 47, 76, 101,
       110, 103, 116, 104, 62, 60] := by decide
  rw [hpay]
  have h1 : rs41RecordSlices
        [101, 115, 115, 50, 62, 82, 83, 52, 49, 60, 47, 83, 116, 97, 116, 101, 77, 101,
         115, 115, 50, 62, 60, 76, 101, 110, 103, 116, 104, 62, 52, 50, 60, 47, 76, 101,
         110, 103, 116, 104, 62, 60] =
      [[83, 52, 49, 60, 47, 83, 116, 97, 116, 101, 77, 101, 115, 115, 50],
       [62, 60, 76, 101, 110, 103, 116, 104, 62, 52, 50, 60, 47, 76, 101]] := by decide
  have hr1 : (decodeRS41sample
      [83, 52, 49, 60, 47, 83, 116, 97, 116, 101, 77, 101, 115, 115, 50]).isSome = true := by
    rw [decodeRS41sample, if_pos (by decide)]
    rfl
  have hr2 : (decodeRS41sample
      [62, 60, 76, 101, 110, 103, 116, 104, 62, 52, 50, 60, 47, 76, 101]).isSome = true := by
    rw [decodeRS41sample, if_pos (by decide)]
    rfl
  obtain ⟨r1, hr1e⟩ := Option.isSome_iff_exists.mp hr1
  obtain ⟨r2, hr2e⟩ := Option.isSome_iff_exists.mp hr2
  have hall : decodeRS41all
      [[83, 52, 49, 60, 47, 83, 116, 97, 116, 101, 77, 101, 115, 115, 50],
       [62, 60, 76, 101, 110, 103, 116, 104, 62, 52, 50, 60, 47, 76, 101]]
      = some [r1, r2] := by
    simp [decodeRS41all, hr1e, hr2e]
  rw [allRS41samples, h1, hall, Option.some_bind]
  simp [attachTimes]

/-- Claim C4 (amended), part one: when both TM delimiters are absent
from a file of at least five bytes, `delimitedText` extracts the empty
text `data[-1:4]` (whose XML parse then fails inside the message
constructor, so the program stops with zero rows, via the XML parser
error rather than a dedicated FramingError).  Part two: when the CRC
trailer marker is absent, framing does not fail: `find` returns -1 and
`binaryData` silently returns the slice `data[11 : 11+Length]`. -/
theorem framing_missing_markers (d : List Nat) :
    (∀ L : Nat, pyFind d crcStartMarker = -1 →
        binaryData d L = pySlice d 11 (11 + (L : Int)))
    ∧ (pyFind d tmOpenTag = -1 → pyFind d tmCloseTag = -1 →
        5 ≤ d.length → delimitedText d tmOpenTag tmCloseTag = []) := by
  constructor
  · intro L h
    rw [binaryData, h]
    norm_num
  · intro h1 h2 hlen
    rw [delimitedText, h1, h2]
    norm_num [tmCloseTag]
    unfold pySlice
    dsimp only
    rw [if_pos (show (-1 : Int) < 0 by norm_num)]
    rw [if_neg (show ¬((4 : Int) < 0) by norm_num)]
    have ha : (max ((-1 : Int) + d.length) 0).toNat = d.length - 1 := by omega
    have hb : (min (4 : Int) (d.length : Int)).toNat = 4 := by omega
    rw [ha, hb]
    have hz : 4 - (d.length - 1) = 0 := by omega
    rw [hz]
    simp

/-- Witness for claim C4 on the concrete container `dTM`. -/
theorem framing_missing_markers_witness :
    pyFind dTM crcStartMarker = -1
    ∧ binaryData dTM 42 = pySlice dTM 11 (11 + ((42 : Nat) : Int)) :=
  ⟨by decide, (framing_missing_markers dTM).1 42 (by decide)⟩

/-- Helper: Python slicing with nonnegative bounds is drop-and-take with
both bounds clamped to the length. -/
theorem pySlice_ofNat (d : List Nat) (a b : Nat) :
    pySlice d (a : Int) (b : Int) =
      (d.drop (min a d.length)).take (min b d.length - min a d.length) := by
  unfold pySlice
  dsimp only
  rw [if_neg (by omega), if_neg (by omega)]
  have h1 : (min (a : Int) (d.length : Int)).toNat = min a d.length := by omega
  have h2 : (min (b : Int) (d.length : Int)).toNat = min b d.length := by omega
  rw [h1, h2]

/-- A 15-byte container: the 12-byte trailer marker followed by only the
three payload bytes 97, 98, 99. -/
def dC5 : List Nat := crcStartMarker ++ [97, 98, 99]

/-- Claim C5, counterexample: with declared length 100 but only 3 bytes
available after the marker and skip, framing returns the 3-byte payload
(shorter than declared) instead of failing with a LengthError; no length
validation exists in the code. -/
theorem binaryData_truncates_cex :
    binaryData dC5 100 = [97, 98, 99] ∧ (binaryData dC5 100).length < 100 := by decide

/-- Claim C5 (amended): when the declared length exceeds the bytes
available after the marker-plus-12 skip, framing raises no error and
returns the truncated payload of all remaining bytes, which is strictly
shorter than the declared length. -/
theorem binaryData_available (d : List Nat) (L p : Nat)
    (hp : pyFind d crcStartMarker = (p : Int)) (havail : d.length - (p + 12) < L) :
    binaryData d L = d.drop (p + 12) ∧ (binaryData d L).length < L := by
  have hbin : binaryData d L = pySlice d ((p + 12 : Nat) : Int) ((p + 12 + L : Nat) : Int) := by
    rw [binaryData, hp]
    norm_cast
  rw [hbin, pySlice_ofNat]
  have hmin2 : min (p + 12 + L) d.length = d.length := by omega
  rcases Nat.le_total (p + 12) d.length with hle | hle
  · have hmin1 : min (p + 12) d.length = p + 12 := by omega
    rw [hmin1, hmin2]
    have hlen : (d.drop (p + 12)).length = d.length - (p + 12) := by simp
    constructor
    · rw [← hlen]
      exact List.take_length _
    · rw [List.length_take]
      omega
  · have hmin1 : min (p + 12) d.length = d.length := by omega
    rw [hmin1, hmin2]
    have hnil : d.drop (p + 12) = [] := List.drop_eq_nil_of_le hle
    have hnil2 : d.drop d.length = [] := List.drop_eq_nil_of_le le_rfl
    rw [hnil, hnil2]
    constructor
    · simp
    · simp
      omega

/-- Witness for claim C5 on the concrete container `dC5`. -/
theorem binaryData_available_witness :
    pyFind dC5 crcStartMarker = ((0 : Nat) : Int) ∧ dC5.length - (0 + 12) < 100 ∧
      (binaryData dC5 100 = dC5.drop (0 + 12) ∧ (binaryData dC5 100).length < 100) :=
  ⟨by decide, by decide, binaryData_available dC5 100 0 (by decide) (by decide)⟩

/-- A 23-byte container: two junk bytes, the trailer marker at index 2
(so `</CRC>` ends at index 8), payload bytes 97, 98, 99 at index 14,
and further bytes 88, 89, 90, 37, 38, 39. -/
def dC8 : List Nat := [48, 49] ++ crcStartMarker ++ [97, 98, 99, 88, 89, 90, 37, 38, 39]

/-- Claim C8, counterexample: the payload starts 12 bytes past the START
of the closing delimiter `</CRC>` (index 2 + 12 = 14, bytes 97, 98, 99),
not 12 bytes past its END (index 2 + 6 + 12 = 20 would give bytes 37,
38, 39). -/
theorem binaryData_offset_cex :
    binaryData dC8 3 = [97, 98, 99]
    ∧ pyFind dC8 crcCloseTag = 2
    ∧ pySlice dC8 (2 + 6 + 12) (2 + 6 + 12 + 3) = [37, 38, 39]
    ∧ ([97, 98, 99] : List Nat) ≠ [37, 38, 39] := by decide

/-- Claim C8 (amended): for a container with enough bytes, the payload
begins exactly 12 bytes past the start of the trailer marker's closing
delimiter `</CRC>` (that is, immediately after the `\nSTART` text, 6
bytes past the end of `</CRC>`) and spans exactly the declared length. -/
theorem binaryData_offset (d : List Nat) (L p : Nat)
    (hp : pyFind d crcStartMarker = (p : Int)) (hlen : p + 12 + L ≤ d.length) :
    binaryData d L = (d.drop (p + 12)).take L ∧ (binaryData d L).length = L := by
  have hbin : binaryData d L = pySlice d ((p + 12 : Nat) : Int) ((p + 12 + L : Nat) : Int) := by
    rw [binaryData, hp]
    norm_cast
  rw [hbin, pySlice_ofNat]
  have hmin1 : min (p + 12) d.length = p + 12 := by omega
  have hmin2 : min (p + 12 + L) d.length = p + 12 + L := by omega
  rw [hmin1, hmin2]
  have hL : p + 12 + L - (p + 12) = L := by omega
  rw [hL]
  constructor
  · rfl
  · rw [List.length_take]
    simp
    omega

/-- Witness for claim C8 on the concrete container `dC8`. -/
theorem binaryData_offset_witness :
    pyFind dC8 crcStartMarker = ((2 : Nat) : Int) ∧ 2 + 12 + 3 ≤ dC8.length ∧
      (binaryData dC8 3 = (dC8.drop (2 + 12)).take 3 ∧ (binaryData dC8 3).length = 3) :=
  ⟨by decide, by decide, binaryData_offset dC8 3 2 (by decide) (by decide)⟩

/-- A 36-byte RS41 payload: 6-byte pre-header, one full 15-byte record,
9 further bytes, and a 6-byte trailer ending in bytes 171, 205.  The
in-between region (indices 6 to 29) holds 24 bytes, not a multiple of
15. -/
def d36 : List Nat :=
  [0, 0, 0, 0, 0, 0] ++
  [1, 0, 0, 0, 0, 0, 0, 0, 0, 0, 0, 0, 0, 0, 0] ++
  [1, 0, 0, 0, 1, 0, 0, 0, 0] ++
  [0, 0, 0, 0, 171, 205]

/-- The first decoded record of `d36`. -/
def rec36a : RS41Scalars := ⟨1, 0, -100, 0, -100, 0, 0⟩

/-- The second decoded record of `d36`; its module_error 43981 = 0xABCD
is read from the trailer bytes at payload indices 34 and 35. -/
def rec36b : RS41Scalars := ⟨1, 1, -100, 0, -100, 0, 43981⟩

/-- Claim C6, counterexample: on the 36-byte payload `d36` the loop
starts a second record at offset 21 (21 < len-6 = 30) whose 15 bytes
run to index 35, consuming all six trailer bytes (indices 30-35); the
record is decoded, its error field built from trailer bytes 171, 205. -/
theorem rs41_trailer_cex :
    rs41RecordSlices d36 =
      [[1,0,0,0,0,0,0,0,0,0,0,0,0,0,0], [1,0,0,0,1,0,0,0,0,0,0,0,0,171,205]]
    ∧ d36.length - 6 = 30
    ∧ d36.getD 34 0 = 171 ∧ d36.getD 35 0 = 205
    ∧ allRS41samples d36 0 = some [(rec36a, -2), (rec36b, -1)] := by
  refine ⟨by decide, by decide, by decide, by decide, ?_⟩
  have h1 : rs41RecordSlices d36 =
      [[1,0,0,0,0,0,0,0,0,0,0,0,0,0,0], [1,0,0,0,1,0,0,0,0,0,0,0,0,171,205]] := by decide
  have h2 : decodeRS41sample [1,0,0,0,0,0,0,0,0,0,0,0,0,0,0] = some rec36a := by
    norm_num [decodeRS41sample, unpackU16BE, unpackU32BE, unpackI32BE, rec36a]
  have h3 : decodeRS41sample [1,0,0,0,1,0,0,0,0,0,0,0,0,171,205] = some rec36b := by
    norm_num [decodeRS41sample, unpackU16BE, unpackU32BE, unpackI32BE, rec36b]
  have h4 : decodeRS41all
        [[1,0,0,0,0,0,0,0,0,0,0,0,0,0,0], [1,0,0,0,1,0,0,0,0,0,0,0,0,171,205]]
      = some [rec36a, rec36b] := by
    simp [decodeRS41all, h2, h3]
  rw [allRS41samples, h1, h4]
  simp [attachTimes, rec36a, rec36b]

/-- Claim C6 (amended): records are 15-byte slices starting at offsets
6, 21, 36, ... strictly below `len - 6`; when the region between the
6-byte pre-header and the 6-byte trailer has a size that is a multiple
of 15 there are exactly `(len - 12) / 15` records and none reaches into
the trailer; for other payload lengths the final slice whose start is
below `len - 6` extends into the trailer (claim C6 as stated is false
there, see the counterexample). -/
theorem rs41Slices_spec (d : List Nat) (h15 : 15 ∣ (d.length - 12)) (h12 : 12 ≤ d.length) :
    (pyRange 6 (d.length - 6) 15).length = (d.length - 12) / 15
    ∧ (∀ i ∈ pyRange 6 (d.length - 6) 15, 6 ≤ i ∧ i + 15 ≤ d.length - 6)
    ∧ rs41RecordSlices d = (pyRange 6 (d.length - 6) 15).map (fun i => (d.drop i).take 15) := by
  obtain ⟨k, hk⟩ := h15
  refine ⟨?_, ?_, rfl⟩
  · unfold pyRange
    simp
    omega
  · intro i hi
    unfold pyRange at hi
    simp only [List.mem_map, List.mem_range] at hi
    obtain ⟨j, hj, rfl⟩ := hi
    omega

/-- Witness for claim C6 on the concrete well-formed payload `d42`. -/
theorem rs41Slices_spec_witness :
    (15 ∣ (d42.length - 12)) ∧ 12 ≤ d42.length ∧
      ((pyRange 6 (d42.length - 6) 15).length = (d42.length - 12) / 15
      ∧ (∀ i ∈ pyRange 6 (d42.length - 6) 15, 6 ≤ i ∧ i + 15 ≤ d42.length - 6)
      ∧ rs41RecordSlices d42 =
          (pyRange 6 (d42.length - 6) 15).map (fun i => (d42.drop i).take 15)) :=
  ⟨by decide, by decide, rs41Slices_spec d42 (by decide) (by decide)⟩

/-- Claim C7, counterexample: a 26-byte payload has only 14 bytes
between pre-header and trailer (fewer than one 15-byte record), yet
decoding does not fail: it returns one record, sliced from indices 6-20
and thus overlapping the trailer. -/
theorem rs41_zero_records_cex :
    allRS41samples (List.replicate 26 0) 0 = some [(recA, -1)]
    ∧ (List.replicate 26 0 : List Nat).length - 12 < 15 := by
  constructor
  · have h1 : rs41RecordSlices (List.replicate 26 0) =
        [[0,0,0,0,0,0,0,0,0,0,0,0,0,0,0]] := by decide
    have h2 : decodeRS41sample [0,0,0,0,0,0,0,0,0,0,0,0,0,0,0] = some recA := by
      norm_num [decodeRS41sample, unpackU16BE, unpackU32BE, unpackI32BE, recA]
    have h4 : decodeRS41all [[0,0,0,0,0,0,0,0,0,0,0,0,0,0,0]] = some [recA] := by
      simp [decodeRS41all, h2]
    rw [allRS41samples, h1, h4]
    simp [attachTimes, recA]
  · decide

/-- Claim C7 (amended): a payload of at most 20 bytes (in particular any
payload yielding zero record slices) makes decoding fail with an error
(the Python IndexError at `records[-1]`, or struct.error on a short
slice), and a successful decode never returns an empty record sequence;
however a payload of 21 to 26 bytes succeeds with one record built
partly from trailer bytes (see the counterexample). -/
theorem allRS41samples_short_err :
    (∀ (d : List Nat) (uet : Int), d.length ≤ 20 → allRS41samples d uet = none)
    ∧ (∀ (d : List Nat) (uet : Int) (res : List (RS41Scalars × Int)),
        allRS41samples d uet = some res → res ≠ []) := by
  constructor
  · intro d uet h
    rcases le_or_lt d.length 12 with h13 | h13
    · have hc : (d.length - 6 - 6 + 15 - 1) / 15 = 0 := by omega
      have hr : pyRange 6 (d.length - 6) 15 = [] := by
        unfold pyRange
        rw [hc]
        simp
      simp [allRS41samples, rs41RecordSlices, hr, decodeRS41all, attachTimes]
    · have hc : (d.length - 6 - 6 + 15 - 1) / 15 = 1 := by omega
      have hr : pyRange 6 (d.length - 6) 15 = [6] := by
        unfold pyRange
        rw [hc]
        decide
      have hlen : ((d.drop 6).take 15).length < 15 := by
        rw [List.length_take, List.length_drop]
        omega
      have hdec : decodeRS41sample ((d.drop 6).take 15) = none := by
        rw [decodeRS41sample, if_neg (by omega)]
      simp [allRS41samples, rs41RecordSlices, hr, decodeRS41all, hdec]
  · intro d uet res h
    rw [allRS41samples] at h
    cases hd : decodeRS41all (rs41RecordSlices d) with
    | none => rw [hd] at h; simp at h
    | some records =>
      rw [hd, Option.some_bind] at h
      cases records with
      | nil => simp [attachTimes] at h
      | cons r0 rest =>
        simp only [attachTimes] at h
        obtain rfl := (Option.some.inj h).symm
        simp

/-- Witness for claim C7 on the empty payload. -/
theorem allRS41samples_short_err_witness :
    (List.length ([] : List Nat) ≤ 20) ∧ allRS41samples [] 0 = none :=
  ⟨by decide, allRS41samples_short_err.1 [] 0 (by decide)⟩

/-- The Hardy 1998 saturation vapor pressure is strictly positive
(it is an exponential divided by 100). -/
theorem Hardy_1998_pos (TC : ℝ) : 0 < Hardy_1998 TC := by
  unfold Hardy_1998
  positivity

/-- Claim C9: when the humidity-sensor temperature equals the ambient
temperature, the computed ambient relative humidity equals the reported
relative humidity for every reported humidity and pressure: the two
saturation vapor pressure terms cancel. -/
theorem rs41_rh_cancel (TC_ambient hPa_ambient rh_reported TC_humSensor : ℝ)
    (h : TC_humSensor = TC_ambient) :
    ( RS41_RH_wvmr TC_ambient hPa_ambient rh_reported TC_humSensor).1 = rh_reported := by
  subst h
  unfold RS41_RH_wvmr
  dsimp only
  have hne : Hardy_1998 TC_humSensor ≠ 0 := (Hardy_1998_pos TC_humSensor).ne'
  field_simp
  ring

/-- Witness for claim C9 with both temperatures 20, pressure 200 hPa,
reported relative humidity 50 percent. -/
theorem rs41_rh_cancel_witness :
    (20 : ℝ) = 20 ∧ ( RS41_RH_wvmr 20 200 50 20).1 = 50 :=
  ⟨rfl, rs41_rh_cancel 20 200 50 20 rfl⟩

/-- Claim C10: the mixing-ratio computation divides by
`prshPa - ew_hPa` unguarded.  Under the precondition that the ambient
vapor pressure is strictly below the ambient pressure the guarded
embedding never takes its error branch and the denominator is positive;
when the precondition is violated the denominator is zero or negative,
and it is exactly zero at, for example, `ew = prs = 5`.  The call path
is guard-free: the decoded record derived fields are
`RS41_RH_wvmr` applied directly to the decoded scalars, and its second
component is ` WV_mixing_ratio` applied to the ambient vapor pressure
and pressure unconditionally. -/
theorem wv_unguarded_path :
    (∀ ew prs : ℝ, ew < prs →
        WV_mixing_ratio_checked ew prs = some ( WV_mixing_ratio ew prs) ∧ 0 < prs - ew)
    ∧ (∀ ew prs : ℝ, ¬ ew < prs → prs - ew ≤ 0)
    ∧ WV_mixing_ratio_checked 5 5 = none
    ∧ (∀ TC hPa rh T2 : ℝ,
        ( RS41_RH_wvmr TC hPa rh T2).2 = WV_mixing_ratio (Hardy_1998 T2 * rh / 100) hPa)
    ∧ (∀ r : RS41Scalars, decodeRS41derived r =
        RS41_RH_wvmr (r.air_temp_degC : ℝ) (r.pres_mb : ℝ) (r.humdity_percent : ℝ)
          (r.humidity_sensor_temp_degC : ℝ)) := by
  refine ⟨?_, ?_, ?_, fun TC hPa rh T2 => rfl, fun r => rfl⟩
  · intro ew prs h
    have hne : prs - ew ≠ 0 := sub_ne_zero.mpr (ne_of_gt h)
    constructor
    · rw [WV_mixing_ratio_checked, if_neg hne]
    · exact sub_pos.mpr h
  · intro ew prs h
    have hle := le_of_not_lt h
    linarith
  · rw [WV_mixing_ratio_checked]
    simp

/-- Witness for claim C10 at vapor pressure 1 and ambient pressure 2. -/
theorem wv_unguarded_path_witness :
    (1 : ℝ) < 2 ∧ WV_mixing_ratio_checked 1 2 = some ( WV_mixing_ratio 1 2) :=
  ⟨one_lt_two, (wv_unguarded_path.1 1 2 one_lt_two).1⟩
